import Mathlib

/-!
Verification of the face-profile service (FastAPI + InsightFace demo).

The similarity engine, aggregation logic, profile store and request
handlers are shallowly embedded here.  Embedding vectors are modelled as
lists of rationals; the square roots taken by `np.linalg.norm` live in ℝ.
Since NumPy's float division returns NaN/Inf (rather than raising) when
the denominator is zero, real-valued results are wrapped in the type `Fl`
which distinguishes finite values from NaN and the two infinities.
Dimension errors raised inside NumPy (shape mismatch in `np.dot`,
failed broadcasting in array addition) are modelled with `Except String`.
-/

namespace FaceService

open Classical

/-- Value of a NumPy floating-point expression: a finite real, NaN, or ±Inf.
(Rounding is idealised away; only the finite/NaN/Inf distinction and exact
real arithmetic are modelled.) -/
inductive Fl where
  | finite (x : ℝ)
  | nan
  | inf
  | neginf

/-- IEEE-style division as performed by NumPy: a zero denominator yields
NaN (0/0) or a signed infinity instead of raising an error. -/
noncomputable def ieeeDiv (num den : ℝ) : Fl :=
  if den = 0 then
    if num = 0 then Fl.nan else if 0 < num then Fl.inf else Fl.neginf
  else Fl.finite (num / den)

/-- IEEE-style `>=` against a threshold: any comparison with NaN is false. -/
noncomputable def flGe (x : Fl) (t : ℚ) : Bool :=
  match x with
  | Fl.nan => false
  | Fl.inf => true
  | Fl.neginf => false
  | Fl.finite v => if (t : ℝ) ≤ v then true else false

/-- Propositional reading of `score >= threshold` (false at NaN/−Inf). -/
def Fl.GeProp : Fl → ℚ → Prop
  | Fl.nan, _ => False
  | Fl.inf, _ => True
  | Fl.neginf, _ => False
  | Fl.finite v, t => (t : ℝ) ≤ v

/-- Dot product of two equal-length vectors (the value `np.dot` computes). -/
def dot (u v : List ℚ) : ℚ := (List.zipWith (· * ·) u v).sum

/-- Sum of squares of the entries, i.e. the square of `np.linalg.norm`. -/
def sumSq (u : List ℚ) : ℚ := (u.map (fun x => x * x)).sum

/-- `np.dot` on 1-D arrays: raises `ValueError` when the shapes differ. -/
def npDot (u v : List ℚ) : Except String ℚ :=
  if u.length = v.length then Except.ok (dot u v)
  else Except.error "shapes not aligned"

/-- `np.linalg.norm`: square root of the sum of squares. -/
noncomputable def npNorm (u : List ℚ) : ℝ := Real.sqrt ((sumSq u : ℚ) : ℝ)

/-- `cosine_similarity` from `src/multiple.py`:
`np.dot(u, v) / (np.linalg.norm(u) * np.linalg.norm(v))`, with no
zero-norm guard: a zero denominator silently produces NaN or ±Inf. -/
noncomputable def cosine_similarity (u v : List ℚ) : Except String Fl :=
  (npDot u v).map (fun num => ieeeDiv ((num : ℚ) : ℝ) (npNorm u * npNorm v))

/-- Result of a face verification (`app/models/profile.py`). -/
structure VerificationResult where
  is_match : Bool
  score : Fl

/-- `SIMILARITY_THRESHOLD` from `app/core/config.py`:
`float(os.getenv("SIMILARITY_THRESHOLD", "0.6"))` given the environment
variable (as a rational) when set. -/
def SIMILARITY_THRESHOLD_env (env : Option ℚ) : ℚ := env.getD (6 / 10)

/-- The configured threshold in the default environment: 0.6. -/
def SIMILARITY_THRESHOLD : ℚ := SIMILARITY_THRESHOLD_env none

/-- `FaceAnalyzer.verify_faces` from `app/core/face_analyzer.py`: cosine
similarity of the two embeddings (no zero-norm guard), compared with
`>=` against `SIMILARITY_THRESHOLD`. -/
noncomputable def verify_faces (probe_embedding ref_embedding : List ℚ) :
    Except String VerificationResult :=
  (npDot probe_embedding ref_embedding).map (fun num =>
    let similarity := ieeeDiv ((num : ℚ) : ℝ) (npNorm probe_embedding * npNorm ref_embedding)
    { is_match := flGe similarity SIMILARITY_THRESHOLD, score := similarity })

/-! ### Multi-model aggregation (`src/multiple.py`) -/

/-- Element-wise addition of two 1-D NumPy arrays, including NumPy's
broadcasting rule: shapes `(m,)` and `(n,)` are compatible iff `m = n` or
one of them is 1 (a length-1 array is stretched); otherwise a
`ValueError` ("operands could not be broadcast together") is raised. -/
def npAdd (u v : List ℚ) : Except String (List ℚ) :=
  if u.length = v.length then Except.ok (List.zipWith (· + ·) u v)
  else if u.length = 1 then Except.ok (v.map (fun x => u.headD 0 + x))
  else if v.length = 1 then Except.ok (u.map (fun x => x + v.headD 0))
  else Except.error "operands could not be broadcast together"

/-- Python's builtin `sum` over a nonempty sequence of arrays: the start
value 0 is a scalar, and `0 + a = a` by scalar broadcasting, so the fold
starts from the first array.  (The empty case is unreachable behind the
emptiness guard in `aggregate_embeddings`.) -/
def npSum : List (List ℚ) → Except String (List ℚ)
  | [] => Except.ok []
  | x :: xs => List.foldlM npAdd x xs

/-- `weights.get(name, 0)`: look a model name up in a weight mapping,
defaulting to 0.  Mappings are association lists in insertion order,
mirroring Python dict iteration. -/
def wget (ws : List (String × ℚ)) (name : String) : ℚ :=
  (ws.lookup name).getD 0

/-- `sum(weights.get(name, 0) for name in embs)`: total weight over the
models present. -/
def totalWeight (embs : List (String × List ℚ)) (ws : List (String × ℚ)) : ℚ :=
  (embs.map (fun p => wget ws p.1)).sum

/-- `aggregate_embeddings` from `src/multiple.py`: error on an empty
mapping; default weights `1/len(embs)` per model when omitted; error when
the total weight over the models present is zero; otherwise the sum (with
NumPy addition, hence broadcasting) of `(weights.get(name,0)/total) *
embs[name]` over the models in insertion order. -/
def aggregate_embeddings (embs : List (String × List ℚ))
    (weights : Option (List (String × ℚ))) : Except String (List ℚ) :=
  if embs.isEmpty then Except.error "No embeddings to aggregate"
  else
    let ws := match weights with
      | none => embs.map (fun p => (p.1, 1 / (embs.length : ℚ)))
      | some w => w
    let total := totalWeight embs ws
    if total = 0 then Except.error "Total weight cannot be zero"
    else npSum (embs.map (fun p => p.2.map (fun x => (wget ws p.1 / total) * x)))

/-- Modelled from the spec's words (§4.1 `aggregate`):
`effective_weight[m] = weights.get(m, 0) / sum(weights.get(m,0) for m in
embeddings_by_model)`, and equal weight `1/N` per model present when the
weights are omitted. -/
def effective_weight (embs : List (String × List ℚ))
    (weights : Option (List (String × ℚ))) (name : String) : ℚ :=
  match weights with
  | none => 1 / (embs.length : ℚ)
  | some ws => wget ws name / totalWeight embs ws

/-! ### Faces and the InsightFace-facing analysis functions -/

/-- Bounding box of a detected face (`face.bbox`): `[x1, y1, x2, y2]`. -/
structure BBox where
  x1 : ℚ
  y1 : ℚ
  x2 : ℚ
  y2 : ℚ

/-- A face as returned by the external InsightFace provider: bounding box,
five landmark points (`face.kps`: left eye, right eye, nose, left mouth
corner, right mouth corner) and the embedding vector. -/
structure Face where
  bbox : BBox
  kps : List (ℚ × ℚ)
  embedding : List ℚ

/-- `FaceAnalyzer.get_face_embedding`: `faces[0].embedding` of the
provider's detections, `None` when no face was found.  (The conversion of
the PIL image to BGR and the provider call itself are external; the
function is modelled on the returned list of faces.) -/
def get_face_embedding (faces : List Face) : Option (List ℚ) :=
  match faces with
  | [] => none
  | face :: _ => some face.embedding

/-- Euclidean distance between two landmark points
(`np.linalg.norm(p - q)`). -/
noncomputable def pointDist (p q : ℚ × ℚ) : ℝ :=
  Real.sqrt ((((p.1 - q.1 : ℚ) : ℝ)) ^ 2 + (((p.2 - q.2 : ℚ) : ℝ)) ^ 2)

/-- The measurements interpolated into the description string built by
`FaceAnalyzer.analyze_face`; `faces_detected` is the `len(faces)` count
reported in its last sentence. -/
structure FaceMetrics where
  face_hw : ℚ
  eye_spacing : ℝ
  nose_pos : ℚ
  mouth_spacing : ℝ
  faces_detected : Nat

/-- The description returned by `FaceAnalyzer.analyze_face`: either the
fixed no-face message or the formatted measurement string (modelled by
the values interpolated into it). -/
inductive Description where
  | noFace
  | metrics (m : FaceMetrics)

/-- `FaceAnalyzer.analyze_face` on the provider's detections: the fixed
message and `None` when no face was found; otherwise the measurements of
`faces[0]` (plus the count of detected faces) and `faces[0].embedding`. -/
noncomputable def analyze_face (faces : List Face) : Description × Option (List ℚ) :=
  match faces with
  | [] => (Description.noFace, none)
  | face :: _ =>
    let face_width := face.bbox.x2 - face.bbox.x1
    let face_height := face.bbox.y2 - face.bbox.y1
    let left_eye := face.kps.getD 0 (0, 0)
    let right_eye := face.kps.getD 1 (0, 0)
    let nose := face.kps.getD 2 (0, 0)
    let left_mouth := face.kps.getD 3 (0, 0)
    let right_mouth := face.kps.getD 4 (0, 0)
    (Description.metrics
      { face_hw := face_height / face_width
        eye_spacing := pointDist right_eye left_eye / ((face_width : ℚ) : ℝ)
        nose_pos := (nose.2 - face.bbox.y1) / face_height
        mouth_spacing := pointDist right_mouth left_mouth / ((face_width : ℚ) : ℝ)
        faces_detected := faces.length },
     some face.embedding)

/-- `get_embeddings` from `src/multiple.py`, modelled on each model's
detection result: collects `faces[0].embedding` for every model whose
detector found at least one face, and raises when none did. -/
def get_embeddings (results : List (String × List Face)) :
    Except String (List (String × List ℚ)) :=
  let embs := results.filterMap (fun p =>
    match p.2 with
    | [] => none
    | face :: _ => some (p.1, face.embedding))
  if embs.isEmpty then Except.error "No face detected by any available model"
  else Except.ok embs

/-! ### Profile store and request handlers (`app/`) -/

/-- A stored profile row (`app/models/profile.py`): integer identity
assigned by the store, generated description, embedding. -/
structure Profile where
  id : Nat
  description : String
  embedding : List ℚ

/-- The profile table: rows in rowid (insertion) order, plus the next
autoincrement identity. -/
structure Store where
  nextId : Nat
  rows : List Profile

/-- A freshly created (empty) table. -/
def Store.empty : Store := { nextId := 1, rows := [] }

/-- Creating a profile (the persistence step of `POST /profiles`):
assigns a fresh id and appends the row. -/
def create_profile (s : Store) (description : String) (embedding : List ℚ) :
    Store × Profile :=
  let p : Profile := { id := s.nextId, description := description, embedding := embedding }
  ({ nextId := s.nextId + 1, rows := s.rows ++ [p] }, p)

/-- `session.get(Profile, profile_id)`: lookup by identity. -/
def get_profile (s : Store) (profile_id : Nat) : Option Profile :=
  s.rows.find? (fun p => p.id == profile_id)

/-- `list_profiles` (`GET /profiles`): `select(Profile).offset(skip)
.limit(limit)` over the SQLite table, which returns rows in rowid
(insertion) order. -/
def list_profiles (s : Store) (skip limit : Nat) : List Profile :=
  (s.rows.drop skip).take limit

/-- An HTTP handler outcome: a response value or an error status with a
detail message. -/
inductive HandlerResult (α : Type) where
  | ok (value : α)
  | httpError (status : Nat) (detail : String)

/-- `verify_face` (`POST /verify/{profile_id}` in `app/routers/profiles.py`):
look the profile up first (404 when absent), then decode the upload (400
when undecodable, modelled by `file = none`), then extract the probe
embedding (400 when the provider finds no face), then compare.  An
exception escaping `verify_faces` would surface as a 500. -/
noncomputable def verify_face {Img : Type} (s : Store)
    (provider : Img → List Face) (profile_id : Nat) (file : Option Img) :
    HandlerResult VerificationResult :=
  match get_profile s profile_id with
  | none => HandlerResult.httpError 404 "Profile not found"
  | some profile =>
    match file with
    | none => HandlerResult.httpError 400 "Invalid image file"
    | some img =>
      match get_face_embedding (provider img) with
      | none => HandlerResult.httpError 400 "No face detected in image"
      | some probe =>
        match verify_faces probe profile.embedding with
        | Except.ok r => HandlerResult.ok r
        | Except.error e => HandlerResult.httpError 500 e

/-- `create_db_and_tables` (`app/core/database.py`): `drop_all` then
`create_all`.  The database is `none` when the tables are absent, `some
rows` when the profile table holds `rows`. -/
def drop_all (_tables : Option (List Profile)) : Option (List Profile) := none

/-- `SQLModel.metadata.create_all`: creates the (empty) tables when they
are absent, leaves existing tables untouched. -/
def create_all (tables : Option (List Profile)) : Option (List Profile) :=
  match tables with
  | none => some []
  | some rows => some rows

/-- `create_db_and_tables`: drop all tables first, then recreate them. -/
def create_db_and_tables (tables : Option (List Profile)) : Option (List Profile) :=
  create_all (drop_all tables)

/-- `on_startup` (`app/main.py`): runs `create_db_and_tables` on every
application startup. -/
def on_startup (tables : Option (List Profile)) : Option (List Profile) :=
  create_db_and_tables tables

/-- A concrete detected face used to instantiate face-analysis theorems. -/
def exampleFace : Face :=
  { bbox := { x1 := 0, y1 := 0, x2 := 2, y2 := 2 }
    kps := [(0, 1), (2, 1), (1, 1), (0, 2), (2, 2)]
    embedding := [1, 0] }

/-- A second concrete detected face, different from `exampleFace`. -/
def exampleFace2 : Face :=
  { bbox := { x1 := 1, y1 := 1, x2 := 4, y2 := 5 }
    kps := [(2, 2), (3, 2), (2, 3), (2, 4), (3, 4)]
    embedding := [0, 7] }

/-- A concrete profile row used to instantiate store theorems. -/
def sampleProfile : Profile := { id := 7, description := "sample", embedding := [1, 0] }

/-- Modelled from the spec's words (§4.1 `verify`): score is the cosine
similarity `dot(probe, ref) / (norm(probe) * norm(ref))` and
`is_match = (score >= threshold)`. -/
noncomputable def spec_verify (probe ref : List ℚ) (threshold : ℚ) : VerificationResult :=
  let score := ieeeDiv ((dot probe ref : ℚ) : ℝ) (npNorm probe * npNorm ref)
  { is_match := flGe score threshold, score := score }

/-! ## Supporting lemmas -/

theorem sumSq_cons (x : ℚ) (xs : List ℚ) : sumSq (x :: xs) = x * x + sumSq xs := by
  simp [sumSq]

theorem sumSq_nonneg (u : List ℚ) : 0 ≤ sumSq u := by
  induction u with
  | nil => simp [sumSq]
  | cons x xs ih => rw [sumSq_cons]; exact add_nonneg (mul_self_nonneg x) ih

theorem sumSq_eq_zero (u : List ℚ) (h : sumSq u = 0) : ∀ x ∈ u, x = 0 := by
  induction u with
  | nil => simp
  | cons x xs ih =>
    rw [sumSq_cons] at h
    have hx := (add_eq_zero_iff_of_nonneg (mul_self_nonneg x) (sumSq_nonneg xs)).1 h
    intro y hy
    rcases List.mem_cons.mp hy with rfl | hy
    · exact mul_self_eq_zero.1 hx.1
    · exact ih hx.2 y hy

theorem dot_self (u : List ℚ) : dot u u = sumSq u := by
  induction u with
  | nil => simp [dot, sumSq]
  | cons x xs ih => simp [dot, sumSq] at *

theorem npNorm_eq_zero_iff (u : List ℚ) : npNorm u = 0 ↔ sumSq u = 0 := by
  rw [npNorm, Real.sqrt_eq_zero (by exact_mod_cast sumSq_nonneg u)]
  exact_mod_cast Iff.rfl

theorem flGe_iff (x : Fl) (t : ℚ) : flGe x t = true ↔ Fl.GeProp x t := by
  cases x <;> simp [flGe, Fl.GeProp]

theorem npAdd_of_length_eq (u v : List ℚ) (h : u.length = v.length) :
    npAdd u v = Except.ok (List.zipWith (· + ·) u v) := by
  unfold npAdd
  rw [if_pos h]

theorem foldlM_npAdd (xs : List (List ℚ)) (acc : List ℚ) (d : Nat)
    (hacc : acc.length = d) (hxs : ∀ l ∈ xs, l.length = d) :
    List.foldlM npAdd acc xs =
      Except.ok (xs.foldl (fun a b => List.zipWith (· + ·) a b) acc) := by
  induction xs generalizing acc with
  | nil => rfl
  | cons x xs ih =>
    have hx : x.length = d := hxs x (by simp)
    rw [List.foldlM_cons, npAdd_of_length_eq acc x (by rw [hacc, hx])]
    show List.foldlM npAdd (List.zipWith (· + ·) acc x) xs = _
    rw [ih _ (by simp [hacc, hx]) (fun l hl => hxs l (by simp [hl])),
        List.foldl_cons]

theorem foldl_zipWith_length (xs : List (List ℚ)) (acc : List ℚ) (d : Nat)
    (hacc : acc.length = d) (hxs : ∀ l ∈ xs, l.length = d) :
    (xs.foldl (fun a b => List.zipWith (· + ·) a b) acc).length = d := by
  induction xs generalizing acc with
  | nil => simpa using hacc
  | cons x xs ih =>
    have hx : x.length = d := hxs x (by simp)
    rw [List.foldl_cons]
    exact ih _ (by simp [hacc, hx]) (fun l hl => hxs l (by simp [hl]))

theorem getD_zipWith_add (u v : List ℚ) (j : Nat) (d : Nat)
    (hu : u.length = d) (hv : v.length = d) (hj : j < d) :
    (List.zipWith (· + ·) u v).getD j 0 = u.getD j 0 + v.getD j 0 := by
  rw [List.getD_eq_getElem _ _ (by simp [hu, hv]; omega),
      List.getD_eq_getElem _ _ (by omega : j < u.length),
      List.getD_eq_getElem _ _ (by omega : j < v.length)]
  exact List.getElem_zipWith

theorem foldl_zipWith_getD (xs : List (List ℚ)) (acc : List ℚ) (d : Nat)
    (j : Nat) (hacc : acc.length = d) (hxs : ∀ l ∈ xs, l.length = d)
    (hj : j < d) :
    (xs.foldl (fun a b => List.zipWith (· + ·) a b) acc).getD j 0 =
      acc.getD j 0 + (xs.map (fun l => l.getD j 0)).sum := by
  induction xs generalizing acc with
  | nil => simp
  | cons x xs ih =>
    have hx : x.length = d := hxs x (by simp)
    rw [List.foldl_cons, ih _ (by simp [hacc, hx]) (fun l hl => hxs l (by simp [hl])),
        getD_zipWith_add acc x j d hacc hx hj]
    simp [add_assoc]

theorem npSum_spec (ls : List (List ℚ)) (d : Nat) (hne : ls ≠ [])
    (hl : ∀ l ∈ ls, l.length = d) :
    ∃ r, npSum ls = Except.ok r ∧ r.length = d ∧
      ∀ j, j < d → r.getD j 0 = (ls.map (fun l => l.getD j 0)).sum := by
  match ls, hne with
  | x :: xs, _ =>
    have hx : x.length = d := hl x (by simp)
    have hxs : ∀ l ∈ xs, l.length = d := fun l hl' => hl l (by simp [hl'])
    refine ⟨xs.foldl (fun a b => List.zipWith (· + ·) a b) x, ?_, ?_, ?_⟩
    · show List.foldlM npAdd x xs = _
      exact foldlM_npAdd xs x d hx hxs
    · exact foldl_zipWith_length xs x d hx hxs
    · intro j hj
      rw [foldl_zipWith_getD xs x d j hx hxs hj]
      simp

theorem getD_map_mul (c : ℚ) (l : List ℚ) (j : Nat) (hj : j < l.length) :
    (l.map (fun x => c * x)).getD j 0 = c * l.getD j 0 := by
  rw [List.getD_eq_getElem _ _ (by simpa), List.getD_eq_getElem _ _ hj]
  exact List.getElem_map _

theorem lookup_map_const {β : Type} (l : List (String × β)) (c : ℚ) (n : String)
    (h : ∃ p ∈ l, p.1 = n) :
    (l.map (fun p => (p.1, c))).lookup n = some c := by
  induction l with
  | nil => simp at h
  | cons p t ih =>
    by_cases hn : n = p.1
    · simp [List.lookup, hn]
    · have ht : ∃ q ∈ t, q.1 = n := by
        obtain ⟨q, hq, hq1⟩ := h
        rcases List.mem_cons.mp hq with rfl | hq2
        · exact absurd hq1.symm hn
        · exact ⟨q, hq2, hq1⟩
      simpa [List.lookup, beq_eq_false_iff_ne.mpr hn] using ih ht

theorem wget_map_const (l : List (String × List ℚ)) (c : ℚ) (n : String)
    (h : ∃ p ∈ l, p.1 = n) :
    wget (l.map (fun p => (p.1, c))) n = c := by
  rw [wget, lookup_map_const l c n h]
  rfl

theorem totalWeight_default (embs : List (String × List ℚ)) (hne : embs ≠ []) :
    totalWeight embs (embs.map (fun p => (p.1, 1 / (embs.length : ℚ)))) = 1 := by
  have hN : ((embs.length : ℚ)) ≠ 0 := by
    exact_mod_cast fun h => hne (List.length_eq_zero.mp h)
  rw [totalWeight,
      List.map_congr_left (fun p hp =>
        wget_map_const embs (1 / (embs.length : ℚ)) p.1 ⟨p, hp, rfl⟩),
      List.map_const', List.sum_replicate, nsmul_eq_mul]
  field_simp

theorem aggregate_spec (embs : List (String × List ℚ))
    (w : Option (List (String × ℚ))) (d : Nat) (hne : embs ≠ [])
    (hd : ∀ p ∈ embs, p.2.length = d)
    (hw : ∀ ws, w = some ws → totalWeight embs ws ≠ 0) :
    ∃ r, aggregate_embeddings embs w = Except.ok r ∧ r.length = d ∧
      ∀ j, j < d → r.getD j 0 =
        (embs.map (fun p => effective_weight embs w p.1 * p.2.getD j 0)).sum := by
  have hempty : embs.isEmpty = false := by
    cases embs
    · exact absurd rfl hne
    · rfl
  have main : ∀ ws : List (String × ℚ), totalWeight embs ws ≠ 0 →
      (∀ p ∈ embs, wget ws p.1 / totalWeight embs ws = effective_weight embs w p.1) →
      ∃ r, npSum (embs.map (fun p =>
          p.2.map (fun x => (wget ws p.1 / totalWeight embs ws) * x))) = Except.ok r ∧
        r.length = d ∧
        ∀ j, j < d → r.getD j 0 =
          (embs.map (fun p => effective_weight embs w p.1 * p.2.getD j 0)).sum := by
    intro ws _ heff
    have hmapne : embs.map (fun p =>
        p.2.map (fun x => (wget ws p.1 / totalWeight embs ws) * x)) ≠ [] := by
      simpa using hne
    have hmaplen : ∀ l ∈ embs.map (fun p =>
        p.2.map (fun x => (wget ws p.1 / totalWeight embs ws) * x)), l.length = d := by
      intro l hl
      obtain ⟨p, hp, rfl⟩ := List.mem_map.mp hl
      simpa using hd p hp
    obtain ⟨r, hr, hlen, hget⟩ := npSum_spec _ d hmapne hmaplen
    refine ⟨r, hr, hlen, ?_⟩
    intro j hj
    rw [hget j hj, List.map_map]
    refine congrArg List.sum (List.map_congr_left ?_)
    intro p hp
    show (p.2.map (fun x => (wget ws p.1 / totalWeight embs ws) * x)).getD j 0 =
      effective_weight embs w p.1 * p.2.getD j 0
    rw [getD_map_mul _ _ _ (by rw [hd p hp]; exact hj), heff p hp]
  rcases w with _ | ws
  · have htot := totalWeight_default embs hne
    have heff : ∀ p ∈ embs, wget (embs.map (fun p => (p.1, 1 / (embs.length : ℚ)))) p.1 /
        totalWeight embs (embs.map (fun p => (p.1, 1 / (embs.length : ℚ)))) =
        effective_weight embs none p.1 := by
      intro p hp
      rw [htot, wget_map_const embs _ p.1 ⟨p, hp, rfl⟩, div_one]
      rfl
    obtain ⟨r, hr, hlen, hget⟩ := main _ (by rw [htot]; norm_num) heff
    refine ⟨r, ?_, hlen, hget⟩
    unfold aggregate_embeddings
    rw [if_neg (by simp [hempty]), if_neg (by rw [htot]; norm_num)]
    exact hr
  · have htot : totalWeight embs ws ≠ 0 := hw ws rfl
    obtain ⟨r, hr, hlen, hget⟩ := main ws htot (fun p _ => rfl)
    refine ⟨r, ?_, hlen, hget⟩
    unfold aggregate_embeddings
    rw [if_neg (by simp [hempty]), if_neg htot]
    exact hr

/-! ## Theorems -/

/-- C1: the cosine-similarity computations have no zero-norm guard.  On a
zero-norm probe the similarity is the IEEE quotient 0/0, so
`cosine_similarity` returns NaN and `verify_faces` returns a normal
`VerificationResult` carrying a NaN score — no error is reported,
contradicting the claim. -/
theorem C1_zero_norm_returns_nan :
    cosine_similarity [0, 0] [1, 0] = Except.ok Fl.nan ∧
    verify_faces [0, 0] [1, 0] =
      Except.ok { is_match := false, score := Fl.nan } := by
  have hs : sumSq ([0, 0] : List ℚ) = 0 := by norm_num [sumSq]
  have hn : npNorm ([0, 0] : List ℚ) = 0 := (npNorm_eq_zero_iff _).2 hs
  have hd : dot ([0, 0] : List ℚ) [1, 0] = 0 := by norm_num [dot]
  have hden : npNorm ([0, 0] : List ℚ) * npNorm ([1, 0] : List ℚ) = 0 := by
    rw [hn]; ring
  have hdiv : ieeeDiv ((dot ([0, 0] : List ℚ) [1, 0] : ℚ) : ℝ)
      (npNorm ([0, 0] : List ℚ) * npNorm ([1, 0] : List ℚ)) = Fl.nan := by
    unfold ieeeDiv
    rw [if_pos hden, if_pos (by rw [hd]; norm_num)]
  have hlen : ([0, 0] : List ℚ).length = ([1, 0] : List ℚ).length := rfl
  constructor
  · unfold cosine_similarity npDot
    rw [if_pos hlen]
    simp only [Except.map]
    rw [hdiv]
  · unfold verify_faces npDot
    rw [if_pos hlen]
    simp only [Except.map]
    rw [hdiv]
    simp [flGe]

/-- C2: for equal-length embeddings, `verify_faces` returns exactly the
spec's verification result: the score is `dot/(‖probe‖·‖ref‖)` and
`is_match` holds precisely when the score is at least the configured
threshold, whose default is 0.6. -/
theorem C2_verify_matches_spec (probe ref : List ℚ)
    (h : probe.length = ref.length) :
    ∃ r, verify_faces probe ref = Except.ok r ∧
      r = spec_verify probe ref SIMILARITY_THRESHOLD ∧
      (r.is_match = true ↔ Fl.GeProp r.score SIMILARITY_THRESHOLD) ∧
      SIMILARITY_THRESHOLD = 6 / 10 := by
  refine ⟨spec_verify probe ref SIMILARITY_THRESHOLD, ?_, rfl, ?_, rfl⟩
  · unfold verify_faces npDot spec_verify
    rw [if_pos h]
    simp [Except.map]
  · simp only [spec_verify]
    exact flGe_iff _ _

/-- Witness for C2 at two concrete orthogonal embeddings. -/
theorem C2_verify_matches_spec_witness :
    ([1, 0] : List ℚ).length = ([0, 1] : List ℚ).length ∧
    ∃ r, verify_faces [1, 0] [0, 1] = Except.ok r ∧
      r = spec_verify [1, 0] [0, 1] SIMILARITY_THRESHOLD ∧
      (r.is_match = true ↔ Fl.GeProp r.score SIMILARITY_THRESHOLD) ∧
      SIMILARITY_THRESHOLD = 6 / 10 :=
  ⟨rfl, C2_verify_matches_spec [1, 0] [0, 1] rfl⟩

/-- C3: `aggregate_embeddings` performs no explicit dimension check.
With embeddings of lengths 1 and 3, NumPy broadcasting stretches the
length-1 embedding and the aggregation silently returns a length-3
result instead of rejecting the mismatched input. -/
theorem C3_mismatch_silently_computed :
    aggregate_embeddings [("a", [1]), ("b", [1, 2, 3])] none =
      Except.ok [1, 3 / 2, 2] := by
  norm_num [aggregate_embeddings, totalWeight, wget, npSum, npAdd, List.lookup,
    show (("b" : String) == "a") = false by decide]

/-- C4: `aggregate_embeddings` errors on an empty mapping, errors when
the supplied weights sum to zero over the models present, and returns
normally in every other case with equal-length embeddings. -/
theorem C4_aggregate_error_conditions :
    (∀ w, aggregate_embeddings [] w = Except.error "No embeddings to aggregate") ∧
    (∀ embs ws, embs ≠ [] → totalWeight embs ws = 0 →
      aggregate_embeddings embs (some ws) =
        Except.error "Total weight cannot be zero") ∧
    (∀ embs w d, embs ≠ [] → (∀ p ∈ embs, p.2.length = d) →
      (∀ ws, w = some ws → totalWeight embs ws ≠ 0) →
      ∃ r, aggregate_embeddings embs w = Except.ok r) := by
  refine ⟨fun w => rfl, ?_, ?_⟩
  · intro embs ws hne htot
    have hempty : embs.isEmpty = false := by
      cases embs
      · exact absurd rfl hne
      · rfl
    unfold aggregate_embeddings
    rw [if_neg (by simp [hempty]), if_pos htot]
  · intro embs w d hne hd hw
    obtain ⟨r, hr, -, -⟩ := aggregate_spec embs w d hne hd hw
    exact ⟨r, hr⟩

/-- Witness for C4: empty input errors, zero-sum weights error, and a
normal case returns. -/
theorem C4_aggregate_error_conditions_witness :
    aggregate_embeddings [] none = Except.error "No embeddings to aggregate" ∧
    aggregate_embeddings [("a", [1, 2])] (some [("a", 0)]) =
      Except.error "Total weight cannot be zero" ∧
    ∃ r, aggregate_embeddings [("a", [1, 2])] none = Except.ok r :=
  ⟨C4_aggregate_error_conditions.1 none,
   C4_aggregate_error_conditions.2.1 [("a", [1, 2])] [("a", 0)] (by simp)
     (by norm_num [totalWeight, wget, List.lookup]),
   C4_aggregate_error_conditions.2.2 [("a", [1, 2])] none 2 (by simp)
     (by intro p hp; simp only [List.mem_singleton] at hp; subst hp; rfl)
     (fun ws h => nomatch h)⟩

/-- C5: for a nonempty mapping of equal-length embeddings with admissible
weights, the aggregate is element-wise the sum over the models of
`effective_weight[m] * embedding[m]`, where `effective_weight` is the
spec's renormalized weight (equal weight `1/N` when weights are
omitted). -/
theorem C5_aggregate_is_weighted_average (embs : List (String × List ℚ))
    (w : Option (List (String × ℚ))) (d : Nat) (hne : embs ≠ [])
    (hd : ∀ p ∈ embs, p.2.length = d)
    (hw : ∀ ws, w = some ws → totalWeight embs ws ≠ 0) :
    ∃ r, aggregate_embeddings embs w = Except.ok r ∧ r.length = d ∧
      ∀ j, j < d → r.getD j 0 =
        (embs.map (fun p => effective_weight embs w p.1 * p.2.getD j 0)).sum :=
  aggregate_spec embs w d hne hd hw

/-- Witness for C5 on two one-entry models with default weights. -/
theorem C5_aggregate_is_weighted_average_witness :
    ([("a", [2]), ("b", [4])] : List (String × List ℚ)) ≠ [] ∧
    ∃ r, aggregate_embeddings [("a", [2]), ("b", [4])] none = Except.ok r ∧
      r.length = 1 ∧
      ∀ j, j < 1 → r.getD j 0 =
        (([("a", [2]), ("b", [4])] : List (String × List ℚ)).map
          (fun p => effective_weight [("a", [2]), ("b", [4])] none p.1 *
            p.2.getD j 0)).sum :=
  ⟨by simp,
   C5_aggregate_is_weighted_average [("a", [2]), ("b", [4])] none 1 (by simp)
     (by intro p hp
         rcases List.mem_cons.mp hp with rfl | hp
         · rfl
         · simp only [List.mem_singleton] at hp; subst hp; rfl)
     (fun ws h => nomatch h)⟩

/-- C6: on any vector with a nonzero entry, `cosine_similarity u u` is the
finite score 1 (so certainly within 1e-6 of 1.0). -/
theorem C6_self_similarity_is_one (u : List ℚ) (h : ∃ x ∈ u, x ≠ 0) :
    ∃ x : ℝ, cosine_similarity u u = Except.ok (Fl.finite x) ∧
      |x - 1| ≤ 1 / 1000000 := by
  have hs : sumSq u ≠ 0 := by
    intro h0
    obtain ⟨x, hx, hxne⟩ := h
    exact hxne (sumSq_eq_zero u h0 x hx)
  have hsR : ((sumSq u : ℚ) : ℝ) ≠ 0 := by exact_mod_cast hs
  have hden : npNorm u * npNorm u = ((sumSq u : ℚ) : ℝ) := by
    rw [npNorm]; exact Real.mul_self_sqrt (by exact_mod_cast sumSq_nonneg u)
  refine ⟨1, ?_, by norm_num⟩
  unfold cosine_similarity npDot
  rw [if_pos rfl]
  simp only [Except.map]
  rw [dot_self u]
  unfold ieeeDiv
  rw [if_neg (by rw [hden]; exact hsR), hden, div_self hsR]

/-- Witness for C6 at a concrete nonzero vector. -/
theorem C6_self_similarity_is_one_witness :
    (∃ x ∈ ([1, 0] : List ℚ), x ≠ 0) ∧
    ∃ x : ℝ, cosine_similarity [1, 0] [1, 0] = Except.ok (Fl.finite x) ∧
      |x - 1| ≤ 1 / 1000000 :=
  ⟨⟨1, by simp, by norm_num⟩,
   C6_self_similarity_is_one [1, 0] ⟨1, by simp, by norm_num⟩⟩

/-- C7: `list_profiles` pages through the rows in creation (insertion)
order: it returns at most `limit` rows, its `i`-th row is the stored row
at position `skip + i`, and after creating three profiles in an empty
store the default listing returns exactly those three, in creation
order. -/
theorem C7_list_in_creation_order :
    (∀ (s : Store) (skip limit : Nat),
      (list_profiles s skip limit).length ≤ limit ∧
      ∀ i, i < (list_profiles s skip limit).length →
        (list_profiles s skip limit)[i]? = s.rows[skip + i]?) ∧
    (∀ d1 e1 d2 e2 d3 e3,
      list_profiles (create_profile (create_profile
          (create_profile Store.empty d1 e1).1 d2 e2).1 d3 e3).1 0 100 =
        [(create_profile Store.empty d1 e1).2,
         (create_profile (create_profile Store.empty d1 e1).1 d2 e2).2,
         (create_profile (create_profile
            (create_profile Store.empty d1 e1).1 d2 e2).1 d3 e3).2]) := by
  constructor
  · intro s skip limit
    constructor
    · simp [list_profiles]
    · intro i hi
      have hilim : i < limit := by
        have := hi
        simp [list_profiles] at this
        omega
      unfold list_profiles at *
      rw [List.getElem?_take, if_pos hilim, List.getElem?_drop]
  · intro d1 e1 d2 e2 d3 e3
    simp [list_profiles, create_profile, Store.empty]

/-- Witness for C7 at a concrete store, offset and bound. -/
theorem C7_list_in_creation_order_witness :
    0 < (list_profiles { nextId := 3, rows := [sampleProfile, sampleProfile] } 1 5).length ∧
    (list_profiles { nextId := 3, rows := [sampleProfile, sampleProfile] } 1 5)[0]? =
      ([sampleProfile, sampleProfile] : List Profile)[1 + 0]? :=
  ⟨by simp [list_profiles],
   (C7_list_in_creation_order.1 { nextId := 3, rows := [sampleProfile, sampleProfile] } 1 5).2
     0 (by simp [list_profiles])⟩

/-- C8: `on_startup` drops and rebuilds the tables, so whatever the prior
database contents, the post-startup store is the empty table and no
previously persisted row survives. -/
theorem C8_startup_resets_store :
    ∀ tables : Option (List Profile), on_startup tables = some [] ∧
      ∀ rows p, tables = some rows → p ∈ rows →
        p ∉ (on_startup tables).getD [] := by
  intro tables
  constructor
  · rfl
  · intro rows p _ _
    simp [on_startup, create_db_and_tables, create_all, drop_all]

/-- Witness for C8: a store holding one profile before restart is empty
afterwards, and that profile is gone. -/
theorem C8_startup_resets_store_witness :
    on_startup (some [sampleProfile]) = some [] ∧
    sampleProfile ∉ (on_startup (some [sampleProfile])).getD [] :=
  ⟨(C8_startup_resets_store (some [sampleProfile])).1,
   (C8_startup_resets_store (some [sampleProfile])).2 [sampleProfile] sampleProfile rfl
     (by simp)⟩

/-- C9: the verify handler checks profile existence first, so an unknown
profile id yields a 404 for every uploaded file — undecodable, faceless
or valid alike — and never a 400. -/
theorem C9_unknown_profile_is_404 {Img : Type} (s : Store)
    (provider : Img → List Face) (profile_id : Nat) (file : Option Img)
    (h : get_profile s profile_id = none) :
    verify_face s provider profile_id file =
      HandlerResult.httpError 404 "Profile not found" := by
  unfold verify_face
  rw [h]

/-- C10 as stated is false: the generated description is not computed
from `faces[0]` alone, because `analyze_face` interpolates `len(faces)`
into its last sentence.  Two detection results with the same first face
but different face counts yield different descriptions. -/
theorem C10_counterexample_description_counts_faces :
    List.head? [exampleFace] = List.head? [exampleFace, exampleFace] ∧
    analyze_face [exampleFace] ≠ analyze_face [exampleFace, exampleFace] := by
  refine ⟨rfl, ?_⟩
  intro h
  have h2 := congrArg (fun r =>
    match r.1 with
    | Description.noFace => 0
    | Description.metrics m => m.faces_detected) h
  simp [analyze_face] at h2

/-- C10 amended: the embeddings (stored, probe and per-model) come from
`faces[0]` alone, and the description is computed from `faces[0]`
together with the number of detected faces; beyond their count the
remaining faces are ignored. -/
theorem C10_first_face_only :
    (∀ (f : Face) (rest : List Face),
      get_face_embedding (f :: rest) = some f.embedding) ∧
    (∀ (f : Face) (rest : List Face),
      (analyze_face (f :: rest)).2 = some f.embedding) ∧
    (∀ (f : Face) (rest rest' : List Face), rest.length = rest'.length →
      analyze_face (f :: rest) = analyze_face (f :: rest')) ∧
    (∀ results : List (String × List Face),
      get_embeddings results =
        get_embeddings (results.map (fun p => (p.1, p.2.take 1)))) := by
  refine ⟨fun f rest => rfl, fun f rest => rfl, ?_, ?_⟩
  · intro f rest rest' h
    simp [analyze_face, h]
  · intro results
    have hfm : (results.map (fun p => (p.1, p.2.take 1))).filterMap (fun p =>
        match p.2 with
        | [] => none
        | face :: _ => some (p.1, face.embedding)) =
      results.filterMap (fun p =>
        match p.2 with
        | [] => none
        | face :: _ => some (p.1, face.embedding)) := by
      induction results with
      | nil => rfl
      | cons p t ih =>
        rcases p with ⟨n, fs⟩
        cases fs <;> simp [List.filterMap_cons, ih]
    unfold get_embeddings
    rw [hfm]

/-- Witness for the amended C10: swapping the second detected face for a
different one leaves the analysis unchanged. -/
theorem C10_first_face_only_witness :
    ([exampleFace2] : List Face).length = ([exampleFace] : List Face).length ∧
    analyze_face (exampleFace :: [exampleFace2]) =
      analyze_face (exampleFace :: [exampleFace]) :=
  ⟨rfl, C10_first_face_only.2.2.1 exampleFace [exampleFace2] [exampleFace] rfl⟩

/-- Witness for C9: the empty store knows no profile 1, and verifying a
decodable upload against it gives 404. -/
theorem C9_unknown_profile_is_404_witness :
    get_profile Store.empty 1 = none ∧
    verify_face Store.empty (fun _ : Unit => ([] : List Face)) 1 (some ()) =
      HandlerResult.httpError 404 "Profile not found" :=
  ⟨rfl, C9_unknown_profile_is_404 Store.empty (fun _ : Unit => ([] : List Face)) 1
    (some ()) rfl⟩

end FaceService
